import Mathlib

/-!
Shallow embedding of the migration tool (`migrate/migrate.py`).

Modelling conventions:
- the migration directory is a `List String` of filenames, in `os.listdir`
  order; the listing is stable across calls within one run;
- the database is the single `migrations` table, modelled by whether the
  table exists and its (at most one) version row;
- failure of the SQL execution, or of the version `UPDATE`, inside a
  per-file transaction is an oracle on the filename (`Env.sqlFails`,
  `Env.updateFails`); a failed transaction rolls back, so the database
  component is left unchanged and the run halts with the error;
- Python `int()` is modelled by `pyInt`, covering plain decimal strings
  with an optional leading minus sign (the only forms arising here);
- Python `range(a, b)` and `range(a, b, -1)` are `pyRange` / `pyRangeDown`.
-/

namespace MigrationTool

/-- `PLACES = 4` from the source: the fixed width of a version string. -/
def PLACES : Nat := 4

/-- Models `__int_to_number`: `(PLACES - len(str(i))) * "0" + str(i)`.
Python's `n * "0"` is empty for negative `n`, matching truncated `Nat`
subtraction here. -/
def intToNumber (i : Int) : String :=
  String.mk (List.replicate (PLACES - (toString i).length) '0') ++ toString i

/-- The decimal value of a digit character, `none` for a non-digit. -/
def digitVal (c : Char) : Option Nat :=
  if 48 ≤ c.toNat ∧ c.toNat ≤ 57 then some (c.toNat - 48) else none

/-- Accumulating decimal evaluation of a digit run; `none` on a non-digit. -/
def decDigitsAux : Nat → List Char → Option Nat
  | acc, [] => some acc
  | acc, c :: cs =>
    match digitVal c with
    | some d => decDigitsAux (acc * 10 + d) cs
    | none => none

/-- The value of a nonempty all-digit character list, else `none`. -/
def decDigits : List Char → Option Nat
  | [] => none
  | cs => decDigitsAux 0 cs

/-- Models Python `int(s)` on strings without whitespace, underscores or a
plus sign (the only forms this program ever feeds to `int`): digits with an
optional leading minus sign; `none` is a raised `ValueError`. -/
def pyInt (s : String) : Option Int :=
  match s.data with
  | '-' :: rest => (decDigits rest).map (fun n => -(n : Int))
  | cs => (decDigits cs).map (fun n => (n : Int))

/-- Models the Python slice `s[:n]`. -/
def strTake (s : String) (n : Nat) : String :=
  ⟨s.data.take n⟩

/-- Models Python `s.startswith(pre)`. -/
def strStarts (s pre : String) : Bool :=
  pre.data.isPrefixOf s.data

/-- Models Python `s.endswith(suffix)`. -/
def strEnds (s suffix : String) : Bool :=
  suffix.data.isSuffixOf s.data

/-- Models `name.replace(" ", "_")`: the pattern is a single character, so
the replacement is a character map. -/
def replaceSpaces (s : String) : String :=
  ⟨s.data.map (fun c => if c = ' ' then '_' else c)⟩

/-- Models Python `range(a, b)` (ascending, `b` excluded). -/
def pyRange (a b : Int) : List Int :=
  (List.range (b - a).toNat).map (fun (k : Nat) => a + (k : Int))

/-- Models Python `range(a, b, -1)` (descending, `b` excluded). -/
def pyRangeDown (a b : Int) : List Int :=
  (List.range (a - b).toNat).map (fun (k : Nat) => a - (k : Int))

/-- The `migrations` table: whether `CREATE TABLE IF NOT EXISTS` has run,
and the (at most one) row holding the current version string. -/
structure DB where
  tableExists : Bool
  row : Option String
deriving Repr, DecidableEq

/-- The ambient world of one run: the directory listing and the failure
oracles for the two statements executed inside each per-file transaction. -/
structure Env where
  dir : List String
  sqlFails : String → Bool
  updateFails : String → Bool

/-- Errors a run can surface: a `ValueError` from `int()`, a database
error from a failed transaction (carrying the file being applied), or the
`Exception("Too many migrations")` overflow from `__generate_name`. -/
inductive MigErr where
  | valueError : MigErr
  | dbFailure : String → MigErr
  | overflow : MigErr
deriving Repr, DecidableEq

/-- The per-file transaction of step `f` fails iff executing the file's
SQL fails or the version `UPDATE` fails; either way it rolls back whole. -/
def stepFails (env : Env) (f : String) : Bool :=
  env.sqlFails f || env.updateFails f

/-- Models `__create_migrations_table`: `CREATE TABLE IF NOT EXISTS`. -/
def createMigrationsTable (db : DB) : DB :=
  { db with tableExists := true }

/-- Models `UPDATE migrations SET version = $1`: updates every row of the
single-row table, a no-op when no row exists. -/
def setVersion (db : DB) (v : String) : DB :=
  { db with row := db.row.map (fun _ => v) }

/-- Models `_get_last_migration_number`: create the table if absent, read
the row; if there is none, insert the `"0000"` sentinel; return the value
read (the sentinel when there was no row). -/
def getLastMigrationNumber (db : DB) : String × DB :=
  let db1 := createMigrationsTable db
  match db1.row with
  | none => ("0000", { db1 with row := some "0000" })
  | some v => (v, db1)

/-- The filenames `migrate` collects: for each id rendered from
`range(current+1, target+1)`, the directory entries that start with the id
and end with `"_upgrade.sql"`, in listing order. -/
def upgradeList (dir : List String) (c t : Int) : List String :=
  ((pyRange (c + 1) (t + 1)).map intToNumber).flatMap
    (fun i => dir.filter (fun f => strStarts f i && strEnds f "_upgrade.sql"))

/-- The filenames `downgrade` collects: ids from `range(current, target, -1)`,
entries starting with the id and ending with `"_downgrade.sql"`. -/
def downgradeList (dir : List String) (c t : Int) : List String :=
  ((pyRangeDown c t).map intToNumber).flatMap
    (fun i => dir.filter (fun f => strStarts f i && strEnds f "_downgrade.sql"))

/-- The execution loop of `migrate`: for each file, run its SQL and the
version update in one transaction; on failure the transaction rolls back
(database unchanged) and the loop halts; on success the stored version
becomes `file_name[:PLACES]`. Returns the final database, the files read
(in order), and the error if one was raised. -/
def runUpFiles (env : Env) : DB → List String → DB × List String × Option MigErr
  | db, [] => (db, [], none)
  | db, f :: rest =>
    if stepFails env f then (db, [f], some (.dbFailure f))
    else
      let r := runUpFiles env (setVersion db (strTake f PLACES)) rest
      (r.1, f :: r.2.1, r.2.2)

/-- The execution loop of `downgrade`: for each file, parse
`int(file_name[:PLACES])` (a `ValueError` halts before the transaction),
then run the SQL and the update of the version to `one less than the
file's own prefix` in one transaction, with the same rollback-and-halt
behaviour as the upgrade loop. -/
def runDownFiles (env : Env) : DB → List String → DB × List String × Option MigErr
  | db, [] => (db, [], none)
  | db, f :: rest =>
    match pyInt (strTake f PLACES) with
    | none => (db, [f], some .valueError)
    | some n =>
      if stepFails env f then (db, [f], some (.dbFailure f))
      else
        let r := runDownFiles env (setVersion db (intToNumber (n - 1))) rest
        (r.1, f :: r.2.1, r.2.2)

/-- Models `MigrationManager.migrate`: read (and lazily initialise) the
current version, parse it and the target (a failure of either `int()` is a
`ValueError` raised after the read), collect the upgrade files for the
range, and run them. -/
def migrate (env : Env) (db : DB) (migration_number : String) :
    DB × List String × Option MigErr :=
  let r0 := getLastMigrationNumber db
  match pyInt r0.1, pyInt migration_number with
  | some c, some t => runUpFiles env r0.2 (upgradeList env.dir c t)
  | _, _ => (r0.2, [], some .valueError)

/-- Models `MigrationManager.downgrade`: symmetric to `migrate` with the
descending range and the downgrade execution loop. -/
def downgrade (env : Env) (db : DB) (migration_number : String) :
    DB × List String × Option MigErr :=
  let r0 := getLastMigrationNumber db
  match pyInt r0.1, pyInt migration_number with
  | some c, some t => runDownFiles env r0.2 (downgradeList env.dir c t)
  | _, _ => (r0.2, [], some .valueError)

/-- The label resolution of `__generate_name`: a falsy (`None` or empty)
requested name yields `auto_<timestamp>`, otherwise spaces become
underscores. `now` is the rendered current timestamp. -/
def resolveLabel (migration_name : Option String) (now : String) : String :=
  match migration_name with
  | none => "auto_" ++ now
  | some n => if n = "" then "auto_" ++ now else replaceSpaces n

/-- Python's `max` over a nonempty list keyed by the second component:
keeps the earliest element among those with the maximal key (`>` test). -/
def pyMaxBySnd : List (String × Int) → Option (String × Int)
  | [] => none
  | x :: xs => some (xs.foldl (fun best y => if y.2 > best.2 then y else best) x)

/-- `int(PLACES * "9")` from the source: the string of `PLACES` nines,
parsed. -/
def maxVersionNumber : Int :=
  (pyInt (String.mk (List.replicate PLACES '9'))).getD 0

/-- The key evaluation Python's `max(files, key=lambda x: int(x[:PLACES]))`
performs: `int(x[:PLACES])` is computed for every listed file, and a single
unparseable prefix raises `ValueError` for the whole call. -/
def keyedFiles : List String → Option (List (String × Int))
  | [] => some []
  | f :: rest =>
    match pyInt (strTake f PLACES), keyedFiles rest with
    | some n, some ks => some ((f, n) :: ks)
    | _, _ => none

/-- Models `__generate_name`: list the `.sql` files; an empty listing gives
`"0001_initial"`; otherwise take the file with the maximal integer prefix
(`max` with key `int(x[:PLACES])`; an unparseable prefix raises
`ValueError`), increment, fail with the overflow exception above
`int(PLACES * "9")`, and otherwise render `"<number>_<label>"`. -/
def generateName (dir : List String) (migration_name : Option String)
    (now : String) : Except MigErr String :=
  let files := dir.filter (fun f => strEnds f ".sql")
  if files.length = 0 then .ok "0001_initial"
  else
    match keyedFiles files with
    | none => .error .valueError
    | some keyed =>
      match pyMaxBySnd keyed with
      | none => .error .valueError
      | some previous =>
        let number := previous.2 + 1
        if number > maxVersionNumber then .error .overflow
        else .ok (intToNumber number ++ "_" ++ resolveLabel migration_name now)

/-- Models `MigrationManager.generate`: compute the name, then create the
two (empty) files; the returned pair is the filenames created, and an
error from `__generate_name` means no file is created. -/
def generate (dir : List String) (migration_name : Option String)
    (now : String) : Except MigErr (String × String) :=
  match generateName dir migration_name now with
  | .error e => .error e
  | .ok filename => .ok (filename ++ "_upgrade.sql", filename ++ "_downgrade.sql")

/-- The state fold of a successful upgrade run: each file sets the stored
version to its own `PLACES`-character prefix. -/
def upFold (db : DB) (L : List String) : DB :=
  L.foldl (fun d f => setVersion d (strTake f PLACES)) db

/-- The version a downgrade step writes when the file's prefix parses:
one less than the file's own prefix, rendered. -/
def downVersion (f : String) : String :=
  intToNumber (((pyInt (strTake f PLACES)).getD 0) - 1)

/-- The state fold of a successful downgrade run. -/
def downFold (db : DB) (L : List String) : DB :=
  L.foldl (fun d f => setVersion d (downVersion f)) db

example : intToNumber 43 = "0043" := by decide
example : intToNumber 10000 = "10000" := by decide
example : intToNumber (-1) = "00-1" := by decide
example : pyInt "0042" = some 42 := by decide
example : pyInt "00-1" = none := by decide
example : pyInt "abc" = none := by decide
example : pyRange 1 4 = [1, 2, 3] := by decide
example : pyRangeDown 3 1 = [3, 2] := by decide
example :
    migrate ⟨["0001_a_upgrade.sql", "0002_b_upgrade.sql", "0003_c_upgrade.sql"],
      fun _ => false, fun _ => false⟩ ⟨true, some "0000"⟩ "0002"
      = (⟨true, some "0002"⟩, ["0001_a_upgrade.sql", "0002_b_upgrade.sql"], none) := by
  decide
example :
    downgrade ⟨["0002_b_downgrade.sql", "0003_c_downgrade.sql"],
      fun _ => false, fun _ => false⟩ ⟨true, some "0003"⟩ "0001"
      = (⟨true, some "0001"⟩, ["0003_c_downgrade.sql", "0002_b_downgrade.sql"], none) := by
  decide
example : generate [] none "20240101_0101" = .ok ("0001_initial_upgrade.sql", "0001_initial_downgrade.sql") := rfl
example :
    generate ["0042_x_upgrade.sql", "0042_x_downgrade.sql"] (some "add table") "t"
      = .ok ("0043_add_table_upgrade.sql", "0043_add_table_downgrade.sql") := rfl
example :
    generate ["9999_x_upgrade.sql", "9999_x_downgrade.sql"] (some "y") "t"
      = .error .overflow := rfl

/-- Membership in a Python ascending range. -/
lemma mem_pyRange {a b v : Int} : v ∈ pyRange a b ↔ a ≤ v ∧ v < b := by
  simp only [pyRange, List.mem_map, List.mem_range]
  constructor
  · rintro ⟨k, hk, rfl⟩
    omega
  · rintro ⟨h1, h2⟩
    exact ⟨(v - a).toNat, by omega, by omega⟩

/-- An ascending range with a lower bound at or above the stop is empty. -/
lemma pyRange_eq_nil {a b : Int} (h : b ≤ a) : pyRange a b = [] := by
  simp only [pyRange]
  have : (b - a).toNat = 0 := by omega
  simp [this]

/-- Membership in a Python descending (step `-1`) range. -/
lemma mem_pyRangeDown {a b v : Int} : v ∈ pyRangeDown a b ↔ b < v ∧ v ≤ a := by
  simp only [pyRangeDown, List.mem_map, List.mem_range]
  constructor
  · rintro ⟨k, hk, rfl⟩
    omega
  · rintro ⟨h1, h2⟩
    exact ⟨(a - v).toNat, by omega, by omega⟩

/-- A descending range starting at or below the stop is empty. -/
lemma pyRangeDown_eq_nil {a b : Int} (h : a ≤ b) : pyRangeDown a b = [] := by
  simp only [pyRangeDown]
  have : (a - b).toNat = 0 := by omega
  simp [this]

/-- Ascending ranges are strictly increasing. -/
lemma pyRange_pairwise (a b : Int) : (pyRange a b).Pairwise (· < ·) := by
  refine List.Pairwise.map _ ?_ (List.pairwise_lt_range _)
  intro i j hij
  omega

/-- Descending ranges are strictly decreasing. -/
lemma pyRangeDown_pairwise (a b : Int) : (pyRangeDown a b).Pairwise (· > ·) := by
  refine List.Pairwise.map _ ?_ (List.pairwise_lt_range _)
  intro i j hij
  simp only [gt_iff_lt]
  omega

/-- A fold of version writes does not touch the table-existence flag. -/
lemma foldl_setVersion_tableExists (g : String → String) (db : DB) (L : List String) :
    (L.foldl (fun d f => setVersion d (g f)) db).tableExists = db.tableExists := by
  induction L generalizing db with
  | nil => rfl
  | cons f rest ih => simpa [setVersion] using ih (setVersion db (g f))

/-- The row after a fold of version writes: unchanged for an empty list,
else the write of the last file (a no-op on a missing row). -/
lemma foldl_setVersion_row (g : String → String) (db : DB) (L : List String) :
    (L.foldl (fun d f => setVersion d (g f)) db).row
      = (match L.getLast? with
         | none => db.row
         | some f => db.row.map (fun _ => g f)) := by
  induction L generalizing db with
  | nil => rfl
  | cons f rest ih =>
    rw [List.foldl_cons, ih (setVersion db (g f))]
    cases rest with
    | nil => rfl
    | cons r rs =>
      rw [List.getLast?_cons_cons]
      cases h : (r :: rs).getLast? with
      | none => simp at h
      | some q =>
        simp only [setVersion]
        cases db.row <;> rfl

/-- A run of the upgrade loop in which no step fails executes every file in
order, folds the version writes, and reports no error. -/
lemma runUpFiles_ok (env : Env) (db : DB) (L : List String)
    (h : ∀ f ∈ L, stepFails env f = false) :
    runUpFiles env db L = (upFold db L, L, none) := by
  induction L generalizing db with
  | nil => rfl
  | cons f rest ih =>
    have hf : stepFails env f = false := h f (by simp)
    simp only [runUpFiles, hf, Bool.false_eq_true, if_false]
    rw [ih (setVersion db (strTake f PLACES)) (fun g hg => h g (by simp [hg]))]
    rfl

/-- A run of the upgrade loop whose first failing step is `f` commits the
steps before `f`, reads `f` and nothing after it, and halts with the
database error for `f`; the failing transaction leaves the state alone. -/
lemma runUpFiles_fail (env : Env) (db : DB) (L1 : List String) (f : String)
    (L2 : List String)
    (h1 : ∀ g ∈ L1, stepFails env g = false)
    (h2 : stepFails env f = true) :
    runUpFiles env db (L1 ++ f :: L2)
      = (upFold db L1, L1 ++ [f], some (.dbFailure f)) := by
  induction L1 generalizing db with
  | nil => simp [runUpFiles, h2, upFold]
  | cons g rest ih =>
    have hg : stepFails env g = false := h1 g (by simp)
    simp only [List.cons_append, runUpFiles, hg, Bool.false_eq_true, if_false,
      List.append_eq]
    rw [ih (setVersion db (strTake g PLACES)) (fun q hq => h1 q (by simp [hq]))]
    rfl

/-- A run of the downgrade loop in which every prefix parses and no step
fails executes every file in order and reports no error. -/
lemma runDownFiles_ok (env : Env) (db : DB) (L : List String)
    (hp : ∀ f ∈ L, (pyInt (strTake f PLACES)).isSome = true)
    (h : ∀ f ∈ L, stepFails env f = false) :
    runDownFiles env db L = (downFold db L, L, none) := by
  induction L generalizing db with
  | nil => rfl
  | cons f rest ih =>
    have hf : stepFails env f = false := h f (by simp)
    obtain ⟨n, hn⟩ := Option.isSome_iff_exists.mp (hp f (by simp))
    simp only [runDownFiles, hn, hf, Bool.false_eq_true, if_false]
    rw [ih (setVersion db (intToNumber (n - 1)))
      (fun g hg => hp g (by simp [hg])) (fun g hg => h g (by simp [hg]))]
    simp [downFold, downVersion, hn]

/-- A run of the downgrade loop whose first failing step is `f` (all
prefixes up to and including `f` parsing) commits the steps before `f`,
reads `f` and nothing after it, and halts with the database error for `f`. -/
lemma runDownFiles_fail (env : Env) (db : DB) (L1 : List String) (f : String)
    (L2 : List String)
    (hp : ∀ g ∈ L1 ++ [f], (pyInt (strTake g PLACES)).isSome = true)
    (h1 : ∀ g ∈ L1, stepFails env g = false)
    (h2 : stepFails env f = true) :
    runDownFiles env db (L1 ++ f :: L2)
      = (downFold db L1, L1 ++ [f], some (.dbFailure f)) := by
  induction L1 generalizing db with
  | nil =>
    obtain ⟨n, hn⟩ := Option.isSome_iff_exists.mp (hp f (by simp))
    simp [runDownFiles, hn, h2, downFold]
  | cons g rest ih =>
    have hg : stepFails env g = false := h1 g (by simp)
    obtain ⟨n, hn⟩ := Option.isSome_iff_exists.mp (hp g (by simp))
    simp only [List.cons_append, runDownFiles, hn, hg, Bool.false_eq_true, if_false,
      List.append_eq]
    rw [ih (setVersion db (intToNumber (n - 1)))
      (fun q hq => hp q (List.mem_cons_of_mem g hq))
      (fun q hq => h1 q (by simp [hq]))]
    simp [downFold, downVersion, hn]

/-- Reading the version when a row is present returns it and only marks the
table as existing. -/
lemma getLastMigrationNumber_some (db : DB) (C : String) (h : db.row = some C) :
    getLastMigrationNumber db = (C, { db with tableExists := true }) := by
  simp [getLastMigrationNumber, createMigrationsTable, h]

/-- The files `migrate` collects are exactly the directory entries carrying
the upgrade suffix whose name starts with a rendered version in
`current+1 .. target`. -/
lemma mem_upgradeList {dir : List String} {c t : Int} {f : String} :
    f ∈ upgradeList dir c t
      ↔ f ∈ dir ∧ strEnds f "_upgrade.sql" = true
          ∧ ∃ v : Int, c + 1 ≤ v ∧ v ≤ t ∧ strStarts f (intToNumber v) = true := by
  simp only [upgradeList, List.mem_flatMap, List.mem_map, List.mem_filter,
    Bool.and_eq_true]
  constructor
  · rintro ⟨i, ⟨v, hv, rfl⟩, hf, hs, he⟩
    rw [mem_pyRange] at hv
    exact ⟨hf, he, v, by omega, by omega, hs⟩
  · rintro ⟨hf, he, v, h1, h2, hs⟩
    exact ⟨intToNumber v, ⟨v, mem_pyRange.mpr ⟨by omega, by omega⟩, rfl⟩, hf, hs, he⟩

/-- The files `downgrade` collects are exactly the directory entries
carrying the downgrade suffix whose name starts with a rendered version in
`target+1 .. current`. -/
lemma mem_downgradeList {dir : List String} {c t : Int} {f : String} :
    f ∈ downgradeList dir c t
      ↔ f ∈ dir ∧ strEnds f "_downgrade.sql" = true
          ∧ ∃ v : Int, t + 1 ≤ v ∧ v ≤ c ∧ strStarts f (intToNumber v) = true := by
  simp only [downgradeList, List.mem_flatMap, List.mem_map, List.mem_filter,
    Bool.and_eq_true]
  constructor
  · rintro ⟨i, ⟨v, hv, rfl⟩, hf, hs, he⟩
    rw [mem_pyRangeDown] at hv
    exact ⟨hf, he, v, by omega, by omega, hs⟩
  · rintro ⟨hf, he, v, h1, h2, hs⟩
    exact ⟨intToNumber v, ⟨v, mem_pyRangeDown.mpr ⟨by omega, by omega⟩, rfl⟩, hf, hs, he⟩

/-- The 4-digit ceiling constant evaluates to 9999. -/
lemma maxVersionNumber_eq : maxVersionNumber = 9999 := by decide

/-- When every prefix parses, the key evaluation pairs each file with its
parsed prefix. -/
lemma keyedFiles_eq_map (files : List String)
    (hp : ∀ f ∈ files, (pyInt (strTake f PLACES)).isSome = true) :
    keyedFiles files
      = some (files.map (fun f => (f, (pyInt (strTake f PLACES)).getD 0))) := by
  induction files with
  | nil => rfl
  | cons f rest ih =>
    obtain ⟨n, hn⟩ := Option.isSome_iff_exists.mp (hp f (by simp))
    rw [keyedFiles, hn, ih (fun g hg => hp g (by simp [hg]))]
    simp [hn]

/-- The fold underlying Python's `max` returns an element of the list that
every key is bounded by. -/
lemma foldl_max_spec (x : String × Int) (xs : List (String × Int)) :
    (xs.foldl (fun best y => if y.2 > best.2 then y else best) x) ∈ x :: xs
    ∧ x.2 ≤ (xs.foldl (fun best y => if y.2 > best.2 then y else best) x).2
    ∧ ∀ q ∈ xs, q.2 ≤ (xs.foldl (fun best y => if y.2 > best.2 then y else best) x).2 := by
  induction xs generalizing x with
  | nil => exact ⟨by simp, le_refl _, by simp⟩
  | cons y ys ih =>
    obtain ⟨hmem, hle, hall⟩ := ih (if y.2 > x.2 then y else x)
    have hxle : x.2 ≤ (if y.2 > x.2 then y else x).2 := by
      split <;> omega
    have hyle : y.2 ≤ (if y.2 > x.2 then y else x).2 := by
      split <;> omega
    refine ⟨?_, le_trans hxle hle, ?_⟩
    · rcases List.mem_cons.mp hmem with h | h
      · rw [List.foldl_cons, h]
        split <;> simp
      · simp [List.foldl_cons, h]
    · intro q hq
      rcases List.mem_cons.mp hq with rfl | hq
      · exact le_trans hyle hle
      · exact hall q hq

/-- Python's `max` on a nonempty keyed list yields a member whose key
bounds all keys. -/
lemma pyMaxBySnd_spec (l : List (String × Int)) (hne : l ≠ []) :
    ∃ p, pyMaxBySnd l = some p ∧ p ∈ l ∧ ∀ q ∈ l, q.2 ≤ p.2 := by
  cases l with
  | nil => exact absurd rfl hne
  | cons x xs =>
    obtain ⟨hmem, hx, hall⟩ := foldl_max_spec x xs
    refine ⟨_, rfl, hmem, ?_⟩
    intro q hq
    rcases List.mem_cons.mp hq with rfl | hq
    · exact hx
    · exact hall q hq

/-- The last element of a nonempty take. -/
lemma getLast?_take_succ (L : List String) (k : Nat) (hk : k < L.length) :
    (L.take (k + 1)).getLast? = some (L.get ⟨k, hk⟩) := by
  induction L generalizing k with
  | nil => simp at hk
  | cons x xs ih =>
    cases k with
    | zero => rfl
    | succ k =>
      have hk' : k < xs.length := by simpa using hk
      have htail := ih k hk'
      rw [List.take_succ_cons, List.getLast?_cons, htail]
      cases htake : xs.take (k + 1) with
      | nil =>
        rw [htake] at htail
        simp at htail
      | cons y ys => simp [htake, ← htail, List.getLast?_cons]

/-- A one-element ascending range. -/
lemma pyRange_single (a : Int) : pyRange a (a + 1) = [a] := by
  have h1 : (a + 1 - a).toNat = 1 := by omega
  simp [pyRange, h1, List.range_succ]

/-- A one-element descending range. -/
lemma pyRangeDown_single (b : Int) : pyRangeDown (b + 1) b = [b + 1] := by
  have h1 : (b + 1 - b).toNat = 1 := by omega
  simp [pyRangeDown, h1, List.range_succ]

/-- Claim C5: on every call, `_get_last_migration_number` first idempotently
creates the migrations table, then reads the version row; if no row exists
it inserts the sentinel `"0000"` and returns `"0000"`, and afterwards
exactly one row exists; if a row exists its value is returned and the row
is neither inserted nor modified. -/
theorem c5_lazy_version_read (db : DB) :
    ((getLastMigrationNumber db).2.tableExists = true
      ∧ (getLastMigrationNumber db).2.row.isSome = true)
    ∧ (db.row = none →
        getLastMigrationNumber db = ("0000", ⟨true, some "0000"⟩))
    ∧ (∀ v, db.row = some v →
        getLastMigrationNumber db = (v, ⟨true, some v⟩)) := by
  rcases db with ⟨te, row⟩
  cases row with
  | none => simp [getLastMigrationNumber, createMigrationsTable]
  | some v => simp [getLastMigrationNumber, createMigrationsTable]

/-- Witness for C5 on a fresh database and on an initialised one. -/
theorem c5_lazy_version_read_witness :
    getLastMigrationNumber ⟨false, none⟩ = ("0000", ⟨true, some "0000"⟩)
    ∧ getLastMigrationNumber ⟨false, some "0042"⟩ = ("0042", ⟨true, some "0042"⟩) :=
  ⟨(c5_lazy_version_read ⟨false, none⟩).2.1 rfl,
   (c5_lazy_version_read ⟨false, some "0042"⟩).2.2 "0042" rfl⟩

/-- Claim C4: a `migrate` call whose target is at or below the current
version, and a `downgrade` call whose target is at or above it, read and
execute no migration file and leave the stored version unchanged. -/
theorem c4_idempotent_noop (env : Env) (db : DB) (C T : String) (c t : Int)
    (hrow : db.row = some C) (hc : pyInt C = some c) (ht : pyInt T = some t) :
    (t ≤ c → migrate env db T = ({ db with tableExists := true }, [], none))
    ∧ (c ≤ t → downgrade env db T = ({ db with tableExists := true }, [], none)) := by
  have h0 := getLastMigrationNumber_some db C hrow
  constructor
  · intro h
    have hnil : pyRange (c + 1) (t + 1) = [] := pyRange_eq_nil (by omega)
    simp [migrate, h0, hc, ht, upgradeList, hnil, runUpFiles]
  · intro h
    have hnil : pyRangeDown c t = [] := pyRangeDown_eq_nil (by omega)
    simp [downgrade, h0, hc, ht, downgradeList, hnil, runDownFiles]

/-- Witness for C4: from version `"0005"`, migrating to `"0003"` and
downgrading to `"0007"` are both no-ops. -/
theorem c4_idempotent_noop_witness :
    migrate ⟨["0001_a_upgrade.sql"], fun _ => false, fun _ => false⟩
        ⟨true, some "0005"⟩ "0003" = (⟨true, some "0005"⟩, [], none)
    ∧ downgrade ⟨["0001_a_downgrade.sql"], fun _ => false, fun _ => false⟩
        ⟨true, some "0005"⟩ "0007" = (⟨true, some "0005"⟩, [], none) :=
  ⟨(c4_idempotent_noop ⟨["0001_a_upgrade.sql"], fun _ => false, fun _ => false⟩
      ⟨true, some "0005"⟩ "0005" "0003" 5 3 rfl (by decide) (by decide)).1 (by decide),
   (c4_idempotent_noop ⟨["0001_a_downgrade.sql"], fun _ => false, fun _ => false⟩
      ⟨true, some "0005"⟩ "0005" "0007" 5 7 rfl (by decide) (by decide)).2 (by decide)⟩

/-- When the listing is nonempty, every prefix parses and the maximal
parsed prefix is `M`, `__generate_name` increments `M` and applies the
overflow guard. -/
lemma generateName_of_max (dir : List String) (name : Option String)
    (now : String) (M : Int)
    (hne : dir.filter (fun f => strEnds f ".sql") ≠ [])
    (hp : ∀ f ∈ dir.filter (fun f => strEnds f ".sql"),
      (pyInt (strTake f PLACES)).isSome = true)
    (hub : ∀ f ∈ dir.filter (fun f => strEnds f ".sql"),
      (pyInt (strTake f PLACES)).getD 0 ≤ M)
    (hex : ∃ f ∈ dir.filter (fun f => strEnds f ".sql"),
      (pyInt (strTake f PLACES)).getD 0 = M) :
    generateName dir name now
      = (if M + 1 > maxVersionNumber then .error .overflow
         else .ok (intToNumber (M + 1) ++ "_" ++ resolveLabel name now)) := by
  have hkey := keyedFiles_eq_map _ hp
  have hmapne :
      (dir.filter (fun f => strEnds f ".sql")).map
        (fun f => (f, (pyInt (strTake f PLACES)).getD 0)) ≠ [] := by
    simpa using hne
  obtain ⟨p, hpmax, hpmem, hpall⟩ := pyMaxBySnd_spec _ hmapne
  have hple : p.2 ≤ M := by
    obtain ⟨f, hf, rfl⟩ := List.mem_map.mp hpmem
    exact hub f hf
  have hMle : M ≤ p.2 := by
    obtain ⟨f, hf, hfM⟩ := hex
    have := hpall (f, (pyInt (strTake f PLACES)).getD 0)
      (List.mem_map.mpr ⟨f, hf, rfl⟩)
    omega
  have hpM : p.2 = M := le_antisymm hple hMle
  simp only [generateName, hkey, hpmax, hpM]
  rw [if_neg (by simpa [List.length_eq_zero] using hne)]

/-- Claim C6: with no recognised script file in the directory, `generate`
creates the pair for version `"0001"` with label `initial`; with files
present whose maximal 4-digit prefix is `M < 9999`, it creates the pair
for version `M + 1`, zero-padded to 4 digits, whatever label is supplied. -/
theorem c6_generate_naming :
    (∀ (dir : List String) (name : Option String) (now : String),
        dir.filter (fun f => strEnds f ".sql") = [] →
        generate dir name now
          = .ok ("0001_initial_upgrade.sql", "0001_initial_downgrade.sql"))
    ∧ (∀ (dir : List String) (name : Option String) (now : String) (M : Int),
        dir.filter (fun f => strEnds f ".sql") ≠ [] →
        (∀ f ∈ dir.filter (fun f => strEnds f ".sql"),
          (pyInt (strTake f PLACES)).isSome = true) →
        (∀ f ∈ dir.filter (fun f => strEnds f ".sql"),
          (pyInt (strTake f PLACES)).getD 0 ≤ M) →
        (∃ f ∈ dir.filter (fun f => strEnds f ".sql"),
          (pyInt (strTake f PLACES)).getD 0 = M) →
        M < 9999 →
        generate dir name now
          = .ok ((intToNumber (M + 1) ++ "_" ++ resolveLabel name now) ++ "_upgrade.sql",
                 (intToNumber (M + 1) ++ "_" ++ resolveLabel name now) ++ "_downgrade.sql")) := by
  constructor
  · intro dir name now h
    have hgn : generateName dir name now = .ok "0001_initial" := by
      simp [generateName, h]
    rw [generate, hgn]
    rfl
  · intro dir name now M hne hp hub hex hM
    have hgn := generateName_of_max dir name now M hne hp hub hex
    rw [if_neg (by rw [maxVersionNumber_eq]; omega)] at hgn
    rw [generate, hgn]

/-- Witness for C6: an empty directory yields the `0001_initial` pair, and
a directory whose highest version is `0042` yields `0043` under a custom
label. -/
theorem c6_generate_naming_witness :
    generate ["readme.md"] (some "ignored") "t"
      = .ok ("0001_initial_upgrade.sql", "0001_initial_downgrade.sql")
    ∧ generate ["0042_x_upgrade.sql", "0042_x_downgrade.sql"] (some "add col") "t"
      = .ok ("0043_add_col_upgrade.sql", "0043_add_col_downgrade.sql") := by
  constructor
  · exact c6_generate_naming.1 ["readme.md"] (some "ignored") "t" (by decide)
  · have h := c6_generate_naming.2 ["0042_x_upgrade.sql", "0042_x_downgrade.sql"]
      (some "add col") "t" 42 (by decide) (by decide) (by decide)
      ⟨"0042_x_upgrade.sql", by decide⟩ (by decide)
    exact h.trans (by rfl)

/-- Claim C7: when the highest existing version prefix is `"9999"`,
`generate` fails with the overflow error and creates no file pair. -/
theorem c7_version_ceiling (dir : List String) (name : Option String)
    (now : String)
    (hne : dir.filter (fun f => strEnds f ".sql") ≠ [])
    (hp : ∀ f ∈ dir.filter (fun f => strEnds f ".sql"),
      (pyInt (strTake f PLACES)).isSome = true)
    (hub : ∀ f ∈ dir.filter (fun f => strEnds f ".sql"),
      (pyInt (strTake f PLACES)).getD 0 ≤ 9999)
    (hex : ∃ f ∈ dir.filter (fun f => strEnds f ".sql"),
      (pyInt (strTake f PLACES)).getD 0 = 9999) :
    generate dir name now = .error .overflow := by
  have hgn := generateName_of_max dir name now 9999 hne hp hub hex
  rw [if_pos (by rw [maxVersionNumber_eq]; omega)] at hgn
  rw [generate, hgn]

/-- Witness for C7: a directory already at version `9999` overflows. -/
theorem c7_version_ceiling_witness :
    generate ["9999_last_upgrade.sql", "9999_last_downgrade.sql"] (some "next") "t"
      = .error .overflow :=
  c7_version_ceiling ["9999_last_upgrade.sql", "9999_last_downgrade.sql"]
    (some "next") "t" (by decide) (by decide) (by decide)
    ⟨"9999_last_upgrade.sql", by decide⟩

/-- Claim C2: with current version `C` parsed as `c` and target parsed as
`t`, a failure-free `migrate` executes exactly the upgrade files whose
rendered version lies in `c+1 .. t` (the collected list, whose ids are
strictly ascending), and after each executed file the stored version is
that file's own 4-character prefix; the final stored version is the prefix
of the last executed file (unchanged when no file matched). -/
theorem c2_upgrade_range (env : Env) (db : DB) (C T : String) (c t : Int)
    (hrow : db.row = some C) (hc : pyInt C = some c) (ht : pyInt T = some t)
    (hok : ∀ f ∈ upgradeList env.dir c t, stepFails env f = false) :
    migrate env db T
      = (upFold { db with tableExists := true } (upgradeList env.dir c t),
         upgradeList env.dir c t, none)
    ∧ (∀ f, f ∈ upgradeList env.dir c t
        ↔ f ∈ env.dir ∧ strEnds f "_upgrade.sql" = true
            ∧ ∃ v : Int, c + 1 ≤ v ∧ v ≤ t ∧ strStarts f (intToNumber v) = true)
    ∧ (pyRange (c + 1) (t + 1)).Pairwise (· < ·)
    ∧ (∀ (k : Nat) (hk : k < (upgradeList env.dir c t).length),
        (upFold { db with tableExists := true }
            ((upgradeList env.dir c t).take (k + 1))).row
          = some (strTake ((upgradeList env.dir c t).get ⟨k, hk⟩) PLACES))
    ∧ (migrate env db T).1.row
        = (match (upgradeList env.dir c t).getLast? with
           | none => some C
           | some f => some (strTake f PLACES)) := by
  have h0 := getLastMigrationNumber_some db C hrow
  have hrun := runUpFiles_ok env { db with tableExists := true }
    (upgradeList env.dir c t) hok
  have hmig : migrate env db T
      = (upFold { db with tableExists := true } (upgradeList env.dir c t),
         upgradeList env.dir c t, none) := by
    simp only [migrate, h0, hc, ht]
    exact hrun
  refine ⟨hmig, fun f => mem_upgradeList, pyRange_pairwise _ _, ?_, ?_⟩
  · intro k hk
    rw [upFold, foldl_setVersion_row, getLast?_take_succ _ k hk]
    simp [hrow]
  · rw [hmig, upFold, foldl_setVersion_row]
    cases (upgradeList env.dir c t).getLast? <;> simp [hrow]

/-- Witness for C2 (Scenario C): from `"0000"` with files for versions
1–3, migrating to `"0002"` runs 0001 then 0002 and stores `"0002"`. -/
theorem c2_upgrade_range_witness :
    migrate ⟨["0001_a_upgrade.sql", "0002_b_upgrade.sql", "0003_c_upgrade.sql"],
        fun _ => false, fun _ => false⟩ ⟨true, some "0000"⟩ "0002"
      = (⟨true, some "0002"⟩, ["0001_a_upgrade.sql", "0002_b_upgrade.sql"], none) :=
  ((c2_upgrade_range
      ⟨["0001_a_upgrade.sql", "0002_b_upgrade.sql", "0003_c_upgrade.sql"],
        fun _ => false, fun _ => false⟩
      ⟨true, some "0000"⟩ "0000" "0002" 0 2 rfl (by decide) (by decide)
      (by decide)).1).trans (by decide)

/-- Claim C3: with current version parsed as `c` and target parsed as `t`,
a failure-free `downgrade` executes exactly the downgrade files whose
rendered version lies in `t+1 .. c`, in descending id order, and after
each executed file the stored version is one less than that file's own
prefix (not the overall target); the final stored version is one less than
the prefix of the last executed file (unchanged when no file matched). -/
theorem c3_downgrade_range (env : Env) (db : DB) (C T : String) (c t : Int)
    (hrow : db.row = some C) (hc : pyInt C = some c) (ht : pyInt T = some t)
    (hpL : ∀ f ∈ downgradeList env.dir c t,
      (pyInt (strTake f PLACES)).isSome = true)
    (hok : ∀ f ∈ downgradeList env.dir c t, stepFails env f = false) :
    downgrade env db T
      = (downFold { db with tableExists := true } (downgradeList env.dir c t),
         downgradeList env.dir c t, none)
    ∧ (∀ f, f ∈ downgradeList env.dir c t
        ↔ f ∈ env.dir ∧ strEnds f "_downgrade.sql" = true
            ∧ ∃ v : Int, t + 1 ≤ v ∧ v ≤ c ∧ strStarts f (intToNumber v) = true)
    ∧ (pyRangeDown c t).Pairwise (· > ·)
    ∧ (∀ (k : Nat) (hk : k < (downgradeList env.dir c t).length),
        (downFold { db with tableExists := true }
            ((downgradeList env.dir c t).take (k + 1))).row
          = some (downVersion ((downgradeList env.dir c t).get ⟨k, hk⟩)))
    ∧ (downgrade env db T).1.row
        = (match (downgradeList env.dir c t).getLast? with
           | none => some C
           | some f => some (downVersion f)) := by
  have h0 := getLastMigrationNumber_some db C hrow
  have hrun := runDownFiles_ok env { db with tableExists := true }
    (downgradeList env.dir c t) hpL hok
  have hmig : downgrade env db T
      = (downFold { db with tableExists := true } (downgradeList env.dir c t),
         downgradeList env.dir c t, none) := by
    simp only [downgrade, h0, hc, ht]
    exact hrun
  refine ⟨hmig, fun f => mem_downgradeList, pyRangeDown_pairwise _ _, ?_, ?_⟩
  · intro k hk
    rw [downFold, foldl_setVersion_row, getLast?_take_succ _ k hk]
    simp [hrow]
  · rw [hmig, downFold, foldl_setVersion_row]
    cases (downgradeList env.dir c t).getLast? <;> simp [hrow]

/-- Witness for C3 (Scenario D): from `"0003"`, downgrading to `"0001"`
runs 0003 then 0002 and stores `"0001"`. -/
theorem c3_downgrade_range_witness :
    downgrade ⟨["0002_b_downgrade.sql", "0003_c_downgrade.sql"],
        fun _ => false, fun _ => false⟩ ⟨true, some "0003"⟩ "0001"
      = (⟨true, some "0001"⟩, ["0003_c_downgrade.sql", "0002_b_downgrade.sql"], none) :=
  ((c3_downgrade_range
      ⟨["0002_b_downgrade.sql", "0003_c_downgrade.sql"],
        fun _ => false, fun _ => false⟩
      ⟨true, some "0003"⟩ "0003" "0001" 3 1 rfl (by decide) (by decide)
      (by decide) (by decide)).1).trans (by decide)

/-- Claim C1: when the transaction of step `k` of a `migrate` or
`downgrade` run fails (its SQL or its version update), the run returns the
state committed by steps before `k` — the stored version is its value
after step `k-1`, the current value when `k` is the first step — reads no
file beyond step `k`, and surfaces the failure. -/
theorem c1_step_atomicity :
    (∀ (env : Env) (db : DB) (C T : String) (c t : Int)
        (L1 : List String) (f : String) (L2 : List String),
      db.row = some C → pyInt C = some c → pyInt T = some t →
      upgradeList env.dir c t = L1 ++ f :: L2 →
      (∀ g ∈ L1, stepFails env g = false) →
      stepFails env f = true →
      migrate env db T
          = (upFold { db with tableExists := true } L1, L1 ++ [f],
             some (.dbFailure f))
        ∧ (upFold { db with tableExists := true } L1).row
            = (match L1.getLast? with
               | none => some C
               | some g => some (strTake g PLACES)))
    ∧ (∀ (env : Env) (db : DB) (C T : String) (c t : Int)
        (L1 : List String) (f : String) (L2 : List String),
      db.row = some C → pyInt C = some c → pyInt T = some t →
      downgradeList env.dir c t = L1 ++ f :: L2 →
      (∀ g ∈ L1 ++ [f], (pyInt (strTake g PLACES)).isSome = true) →
      (∀ g ∈ L1, stepFails env g = false) →
      stepFails env f = true →
      downgrade env db T
          = (downFold { db with tableExists := true } L1, L1 ++ [f],
             some (.dbFailure f))
        ∧ (downFold { db with tableExists := true } L1).row
            = (match L1.getLast? with
               | none => some C
               | some g => some (downVersion g))) := by
  constructor
  · intro env db C T c t L1 f L2 hrow hc ht hL h1 h2
    have h0 := getLastMigrationNumber_some db C hrow
    have hrun := runUpFiles_fail env { db with tableExists := true } L1 f L2 h1 h2
    constructor
    · simp only [migrate, h0, hc, ht, hL]
      exact hrun
    · rw [upFold, foldl_setVersion_row]
      cases L1.getLast? <;> simp [hrow]
  · intro env db C T c t L1 f L2 hrow hc ht hL hp h1 h2
    have h0 := getLastMigrationNumber_some db C hrow
    have hrun := runDownFiles_fail env { db with tableExists := true } L1 f L2 hp h1 h2
    constructor
    · simp only [downgrade, h0, hc, ht, hL]
      exact hrun
    · rw [downFold, foldl_setVersion_row]
      cases L1.getLast? <;> simp [hrow]

/-- Witness for C1 (Scenario E): the 0002 upgrade script fails, so the run
stops with the stored version at `"0001"` and never reads the 0003 file. -/
theorem c1_step_atomicity_witness :
    migrate ⟨["0001_a_upgrade.sql", "0002_b_upgrade.sql", "0003_c_upgrade.sql"],
        fun f => strStarts f "0002", fun _ => false⟩ ⟨true, some "0000"⟩ "0003"
      = (⟨true, some "0001"⟩, ["0001_a_upgrade.sql", "0002_b_upgrade.sql"],
         some (.dbFailure "0002_b_upgrade.sql")) :=
  ((c1_step_atomicity.1
      ⟨["0001_a_upgrade.sql", "0002_b_upgrade.sql", "0003_c_upgrade.sql"],
        fun f => strStarts f "0002", fun _ => false⟩
      ⟨true, some "0000"⟩ "0000" "0003" 0 3
      ["0001_a_upgrade.sql"] "0002_b_upgrade.sql" ["0003_c_upgrade.sql"]
      rfl (by decide) (by decide) (by decide) (by decide) (by decide)).1).trans
    (by decide)

/-- Claim C10: a version in the requested range with no matching file
raises no error: `migrate` (resp. `downgrade`) simply executes the files
of the versions that do match — any version in the range with a matching
directory entry is still executed — and the final stored version is the
one written by the last file actually executed, unchanged when none
matched. -/
theorem c10_gap_versions :
    (∀ (env : Env) (db : DB) (C T : String) (c t v : Int),
      db.row = some C → pyInt C = some c → pyInt T = some t →
      (∀ f ∈ upgradeList env.dir c t, stepFails env f = false) →
      c + 1 ≤ v → v ≤ t →
      env.dir.filter
        (fun f => strStarts f (intToNumber v) && strEnds f "_upgrade.sql") = [] →
      (migrate env db T).2.2 = none
      ∧ (∀ (w : Int) (f : String), c + 1 ≤ w → w ≤ t →
          f ∈ env.dir → strStarts f (intToNumber w) = true →
          strEnds f "_upgrade.sql" = true →
          f ∈ (migrate env db T).2.1)
      ∧ (migrate env db T).1.row
          = (match (upgradeList env.dir c t).getLast? with
             | none => some C
             | some f => some (strTake f PLACES)))
    ∧ (∀ (env : Env) (db : DB) (C T : String) (c t v : Int),
      db.row = some C → pyInt C = some c → pyInt T = some t →
      (∀ f ∈ downgradeList env.dir c t,
        (pyInt (strTake f PLACES)).isSome = true ∧ stepFails env f = false) →
      t + 1 ≤ v → v ≤ c →
      env.dir.filter
        (fun f => strStarts f (intToNumber v) && strEnds f "_downgrade.sql") = [] →
      (downgrade env db T).2.2 = none
      ∧ (∀ (w : Int) (f : String), t + 1 ≤ w → w ≤ c →
          f ∈ env.dir → strStarts f (intToNumber w) = true →
          strEnds f "_downgrade.sql" = true →
          f ∈ (downgrade env db T).2.1)
      ∧ (downgrade env db T).1.row
          = (match (downgradeList env.dir c t).getLast? with
             | none => some C
             | some f => some (downVersion f))) := by
  constructor
  · intro env db C T c t v hrow hc ht hok h1 h2 hgap
    have h0 := getLastMigrationNumber_some db C hrow
    have hrun := runUpFiles_ok env { db with tableExists := true }
      (upgradeList env.dir c t) hok
    have hmig : migrate env db T
        = (upFold { db with tableExists := true } (upgradeList env.dir c t),
           upgradeList env.dir c t, none) := by
      simp only [migrate, h0, hc, ht]
      exact hrun
    refine ⟨by rw [hmig], ?_, ?_⟩
    · intro w f hw1 hw2 hf hs he
      rw [hmig]
      exact mem_upgradeList.mpr ⟨hf, he, w, hw1, hw2, hs⟩
    · rw [hmig, upFold, foldl_setVersion_row]
      cases (upgradeList env.dir c t).getLast? <;> simp [hrow]
  · intro env db C T c t v hrow hc ht hok h1 h2 hgap
    have h0 := getLastMigrationNumber_some db C hrow
    have hrun := runDownFiles_ok env { db with tableExists := true }
      (downgradeList env.dir c t) (fun f hf => (hok f hf).1) (fun f hf => (hok f hf).2)
    have hmig : downgrade env db T
        = (downFold { db with tableExists := true } (downgradeList env.dir c t),
           downgradeList env.dir c t, none) := by
      simp only [downgrade, h0, hc, ht]
      exact hrun
    refine ⟨by rw [hmig], ?_, ?_⟩
    · intro w f hw1 hw2 hf hs he
      rw [hmig]
      exact mem_downgradeList.mpr ⟨hf, he, w, hw1, hw2, hs⟩
    · rw [hmig, downFold, foldl_setVersion_row]
      cases (downgradeList env.dir c t).getLast? <;> simp [hrow]

/-- Witness for C10: migrating from `"0000"` towards `"0004"` with files
only for 0001 and 0003 raises no error for the missing 0002 and 0004, and
ends at `"0003"`, below the target. -/
theorem c10_gap_versions_witness :
    (migrate ⟨["0001_a_upgrade.sql", "0003_c_upgrade.sql"],
        fun _ => false, fun _ => false⟩ ⟨true, some "0000"⟩ "0004").2.2 = none
    ∧ (migrate ⟨["0001_a_upgrade.sql", "0003_c_upgrade.sql"],
        fun _ => false, fun _ => false⟩ ⟨true, some "0000"⟩ "0004").1.row
        = some "0003" := by
  have h := c10_gap_versions.1
    ⟨["0001_a_upgrade.sql", "0003_c_upgrade.sql"], fun _ => false, fun _ => false⟩
    ⟨true, some "0000"⟩ "0000" "0004" 0 4 2 rfl (by decide) (by decide)
    (by decide) (by decide) (by decide) (by decide)
  exact ⟨h.1, h.2.2.trans (by decide)⟩

/-- Claim C9: with exactly one upgrade and one downgrade file for version
`v+1` whose transactions succeed, migrating from `v` to `v+1` and then
downgrading back to `v` restores the stored version to `v`. -/
theorem c9_roundtrip (env : Env) (db : DB) (v : Int) (fu fd : String)
    (hrow : db.row = some (intToNumber v))
    (hv : pyInt (intToNumber v) = some v)
    (hv1 : pyInt (intToNumber (v + 1)) = some (v + 1))
    (hu : env.dir.filter
      (fun f => strStarts f (intToNumber (v + 1)) && strEnds f "_upgrade.sql")
        = [fu])
    (hd : env.dir.filter
      (fun f => strStarts f (intToNumber (v + 1)) && strEnds f "_downgrade.sql")
        = [fd])
    (hfu : pyInt (strTake fu PLACES) = some (v + 1))
    (hfd : pyInt (strTake fd PLACES) = some (v + 1))
    (sfu : stepFails env fu = false)
    (sfd : stepFails env fd = false) :
    (downgrade env (migrate env db (intToNumber (v + 1))).1
        (intToNumber v)).1.row = some (intToNumber v) := by
  have hUL : upgradeList env.dir v (v + 1) = [fu] := by
    rw [upgradeList, pyRange_single]
    simp [hu]
  have h0 := getLastMigrationNumber_some db _ hrow
  have hrun := runUpFiles_ok env { db with tableExists := true } [fu]
    (by intro g hg; rw [List.mem_singleton] at hg; subst hg; exact sfu)
  have hmig : migrate env db (intToNumber (v + 1))
      = (upFold { db with tableExists := true } [fu], [fu], none) := by
    simp only [migrate, h0, hv, hv1, hUL]
    exact hrun
  have hdb2row : (migrate env db (intToNumber (v + 1))).1.row
      = some (strTake fu PLACES) := by
    rw [hmig]
    simp [upFold, setVersion, hrow]
  have h0' := getLastMigrationNumber_some
    (migrate env db (intToNumber (v + 1))).1 _ hdb2row
  have hDL : downgradeList env.dir (v + 1) v = [fd] := by
    rw [downgradeList, pyRangeDown_single]
    simp [hd]
  have hrund := runDownFiles_ok env
    { (migrate env db (intToNumber (v + 1))).1 with tableExists := true } [fd]
    (by intro g hg; rw [List.mem_singleton] at hg; subst hg; rw [hfd]; rfl)
    (by intro g hg; rw [List.mem_singleton] at hg; subst hg; exact sfd)
  have hdown : downgrade env (migrate env db (intToNumber (v + 1))).1
      (intToNumber v)
      = (downFold
          { (migrate env db (intToNumber (v + 1))).1 with tableExists := true }
          [fd], [fd], none) := by
    simp only [downgrade, h0', hfu, hv, hDL]
    exact hrund
  rw [hdown]
  simp [downFold, downVersion, setVersion, hfd, hdb2row]

/-- Witness for C9: round trip from version 7 through 8 and back, with the
single file pair for 0008. -/
theorem c9_roundtrip_witness :
    (downgrade ⟨["0008_x_upgrade.sql", "0008_x_downgrade.sql"],
        fun _ => false, fun _ => false⟩
      (migrate ⟨["0008_x_upgrade.sql", "0008_x_downgrade.sql"],
          fun _ => false, fun _ => false⟩
        ⟨true, some "0007"⟩ (intToNumber (7 + 1))).1
      (intToNumber 7)).1.row = some (intToNumber 7) :=
  c9_roundtrip
    ⟨["0008_x_upgrade.sql", "0008_x_downgrade.sql"], fun _ => false, fun _ => false⟩
    ⟨true, some "0007"⟩ 7 "0008_x_upgrade.sql" "0008_x_downgrade.sql"
    (by decide) (by decide) (by decide) (by decide) (by decide) (by decide)
    (by decide) (by decide) (by decide)

/-- Claim C8 counterexample: the code performs no target validation. The
target `"10000"` parses to 10000, above the 4-digit maximum 9999, yet
`migrate` from current version `"9999"` completes without any error
(nothing is rejected); likewise `downgrade` to the below-range target
`"-5"` from `"0000"` completes without any error. -/
theorem c8_invalid_target_counterexample :
    (pyInt "10000" = some 10000 ∧ ¬ ((10000 : Int) ≤ 9999)
      ∧ migrate ⟨[], fun _ => false, fun _ => false⟩ ⟨true, some "9999"⟩ "10000"
          = (⟨true, some "9999"⟩, [], none))
    ∧ (pyInt "-5" = some (-5) ∧ ((-5 : Int) < 0)
      ∧ downgrade ⟨[], fun _ => false, fun _ => false⟩ ⟨true, some "0000"⟩ "-5"
          = (⟨true, some "0000"⟩, [], none)) := by
  decide

/-- Claim C8 as amended: `migrate` and `downgrade` do not validate the
target. A malformed (non-integer) target surfaces only the generic
`int()` conversion error, after the version read; a numeric target below
`"0000"` or above 9999 is not rejected — the run proceeds through the
ordinary range computation and, with no failing transaction, finishes
without any error. -/
theorem c8_no_target_validation :
    (∀ (env : Env) (db : DB) (T : String), pyInt T = none →
        migrate env db T = ((getLastMigrationNumber db).2, [], some .valueError)
        ∧ downgrade env db T
            = ((getLastMigrationNumber db).2, [], some .valueError))
    ∧ (∀ (env : Env) (db : DB) (C T : String) (c t : Int),
        db.row = some C → pyInt C = some c → pyInt T = some t →
        t < 0 ∨ 9999 < t →
        (∀ f ∈ upgradeList env.dir c t, stepFails env f = false) →
        (∀ f ∈ downgradeList env.dir c t,
          (pyInt (strTake f PLACES)).isSome = true ∧ stepFails env f = false) →
        (migrate env db T).2.2 = none ∧ (downgrade env db T).2.2 = none) := by
  constructor
  · intro env db T ht
    constructor
    · cases hp : pyInt (getLastMigrationNumber db).1 <;> simp [migrate, ht, hp]
    · cases hp : pyInt (getLastMigrationNumber db).1 <;> simp [downgrade, ht, hp]
  · intro env db C T c t hrow hc ht hout hup hdown
    have h0 := getLastMigrationNumber_some db C hrow
    constructor
    · have hrun := runUpFiles_ok env { db with tableExists := true }
        (upgradeList env.dir c t) hup
      simp only [migrate, h0, hc, ht, hrun]
    · have hrun := runDownFiles_ok env { db with tableExists := true }
        (downgradeList env.dir c t)
        (fun f hf => (hdown f hf).1) (fun f hf => (hdown f hf).2)
      simp only [downgrade, h0, hc, ht, hrun]

/-- Witness for the amended C8: a malformed target fails with the parse
error, and the out-of-range target `"10000"` runs to completion with no
error. -/
theorem c8_no_target_validation_witness :
    migrate ⟨[], fun _ => false, fun _ => false⟩ ⟨true, some "0000"⟩ "abc"
      = (⟨true, some "0000"⟩, [], some .valueError)
    ∧ (migrate ⟨[], fun _ => false, fun _ => false⟩
        ⟨true, some "9999"⟩ "10000").2.2 = none := by
  refine ⟨((c8_no_target_validation.1 ⟨[], fun _ => false, fun _ => false⟩
    ⟨true, some "0000"⟩ "abc" (by decide)).1).trans (by decide), ?_⟩
  exact (c8_no_target_validation.2 ⟨[], fun _ => false, fun _ => false⟩
    ⟨true, some "9999"⟩ "9999" "10000" 9999 10000 rfl (by decide) (by decide)
    (Or.inr (by decide)) (by decide) (by decide)).1

end MigrationTool
